import Mathlib

/-!
Verification development for `nlrb_data/scraper.py`.

The Python module is shallowly embedded: each scraper function becomes a Lean
definition over explicit data (strings as `String`/`List Char`, Python `dict`s
as insertion-ordered association lists, HTML elements as records carrying the
exact pieces of markup the code reads, and Python exceptions as an `Except`
error type).  External library effects (lxml element access, `pandas.read_html`,
`dateutil` date parsing, HTTP fetching) are represented by explicit inputs or
function parameters, so every definition below is executable.
-/

namespace NlrbData

/-- Python exception kinds raised (or potentially raised) by the scraper code. -/
inductive PyError where
  | indexError
  | valueError
  | nameError
  | attributeError
  | parseError
  deriving DecidableEq, Repr

/-- Positions `i` at which the pattern `pat` occurs as a contiguous sublist of
`cs`, in increasing order.  Used to model Python `str.find` / `str.rfind`. -/
def occurrences (cs pat : List Char) : List Nat :=
  (List.range (cs.length + 1)).filter (fun i => (cs.drop i).take pat.length == pat)

/-- Model of Python `str.find` restricted to found/not-found: the first
occurrence position of `pat` in `cs`, or `none` (Python returns `-1`). -/
def pyFindSub (cs pat : List Char) : Option Nat :=
  (occurrences cs pat).head?

/-- Model of Python `str.rfind`: the last occurrence position of `pat` in
`cs`, or `none` (Python returns `-1`). -/
def pyRfindSub (cs pat : List Char) : Option Nat :=
  (occurrences cs pat).getLast?

/-- Model of the Python `in` test on strings: substring containment. -/
def strContains (s pat : String) : Bool :=
  !(occurrences s.data pat.data).isEmpty

/-- Zero-padded two-digit rendering of a field, as `strftime` produces for
`%m` and `%d`. -/
def pad2 (n : Nat) : String :=
  if n < 10 then "0" ++ toString n else toString n

/-- Calendar date, the shape of a Python `datetime.date`. -/
structure PyDate where
  year : Nat
  month : Nat
  day : Nat
  deriving DecidableEq, Repr

/-- Model of `d.strftime("%m/%d/%Y")` for the four-digit years this scraper
works with: zero-padded month and day, `/` separators, plain year. -/
def strftime_mdY (d : PyDate) : String :=
  pad2 d.month ++ "/" ++ pad2 d.day ++ "/" ++ toString d.year

/-- Upper-case hexadecimal digit for `n < 16`. -/
def hexDigit (n : Nat) : Char :=
  if n < 10 then Char.ofNat (48 + n) else Char.ofNat (55 + n)

/-- Model of `urllib.parse.quote` with its default `safe="/"`: ASCII
alphanumerics, `_.-~` and `/` pass through, every other character is
percent-encoded byte-by-byte from its UTF-8 encoding. -/
def urlQuote (s : String) : String :=
  String.join (s.data.map fun c =>
    if c.isAlphanum || c == '-' || c == '.' || c == '_' || c == '~' || c == '/' then
      String.mk [c]
    else
      String.join ((String.mk [c]).toUTF8.toList.map fun b =>
        String.mk ['%', hexDigit (b.toNat / 16), hexDigit (b.toNat % 16)]))

/-- Constant `BASE_SEARCH_URL` of the scraper module. -/
def BASE_SEARCH_URL : String := "https://www.nlrb.gov/search/cases"

/-- Constant `BASE_URL` of the scraper module. -/
def BASE_URL : String := "https://www.nlrb.gov"

/-- Embedding of `get_case_list_url(dates, company, page_number)`.

The Python code appends, in order: the base search path plus `/`; the quoted
company name when one is given; the query separator `?`; when dates are given,
`&f[0]=date%3A<start>%20to%20<end>` with the dates rendered by
`strftime("%m/%d/%Y")` and spliced in verbatim; and, when `page_number` is
truthy (so neither `None` nor `0`), `&page=<n>`. -/
def get_case_list_url (dates : Option (PyDate × PyDate)) (company : Option String)
    (page_number : Option Nat) : String :=
  let filter_number : Nat := 0
  let url := BASE_SEARCH_URL ++ "/"
  let url := match company with
    | some c => url ++ urlQuote c
    | none => url
  let url := url ++ "?"
  let url := match dates with
    | some ds =>
        let start_date := strftime_mdY ds.1
        let end_date := strftime_mdY ds.2
        url ++ "&f[" ++ toString filter_number ++ "]=date%3A" ++ start_date
            ++ "%20to%20" ++ end_date
    | none => url
  match page_number with
  | some p => if p != 0 then url ++ "&page=" ++ toString p else url
  | none => url

/-- Portion of a URL from the first `?` (inclusive) to the end; `""` when the
URL has no `?`. -/
def queryPortion (s : String) : String :=
  match pyFindSub s.data ['?'] with
  | none => ""
  | some i => String.mk (s.data.drop i)

/-- Embedding of the digit-scanning loop of `get_page_count`: starting at the
character list after `?page=`, the Python code reads `buffer[pos1]` and, while
it is an ASCII digit, advances and reads again.  The read is unguarded, so
running past the last character of the buffer raises `IndexError`.  On success
the result is the number of digits consumed. -/
def scan_digits : List Char → Except PyError Nat
  | [] => .error .indexError
  | c :: rest => if c.isDigit then (scan_digits rest).map (· + 1) else .ok 0

/-- Numeric value of a list of decimal digits, as Python `int` computes it on
an all-digit string. -/
def digitsToNat (ds : List Char) : Nat :=
  ds.foldl (fun n c => n * 10 + (c.toNat - 48)) 0

/-- Embedding of the text-processing part of `get_page_count` (the HTTP fetch
is factored out; this takes the response body text).  The code takes the last
occurrence of `?page=`; if there is none it returns 1; otherwise it scans the
digits that follow (raising `IndexError` past the end of the buffer) and
returns `int` of the scanned slice (`int("")` raises `ValueError` when no
digit follows). -/
def get_page_count_text (buffer : String) : Except PyError Nat :=
  let cs := buffer.data
  match pyRfindSub cs "?page=".data with
  | none => .ok 1
  | some p =>
    let pos0 := p + 6
    match scan_digits (cs.drop pos0) with
    | .error e => .error e
    | .ok count =>
      if count = 0 then .error .valueError
      else .ok (digitsToNat ((cs.drop pos0).take count))

/-- Values stored in a parsed case-summary dict: scraped strings, or — for the
derived `status_date` field — a parsed calendar date. -/
inductive Value where
  | s (v : String)
  | d (v : PyDate)
  deriving DecidableEq, Repr

/-- Python `dict` with string keys, modelled as an insertion-ordered
association list whose keys stay unique: assignment replaces the value of an
existing key in place and appends a fresh key at the end. -/
abbrev Dict := List (String × Value)

/-- Model of Python `case_result[k] = v`. -/
def dictSet : Dict → String → Value → Dict
  | [], k, v => [(k, v)]
  | (k', v') :: rest, k, v =>
    if k' == k then (k, v) :: rest else (k', v') :: dictSet rest k v

/-- Model of Python `case_result[k]` / `k in case_result` (via `Option`). -/
def dictFind : Dict → String → Option Value
  | [], _ => none
  | (k', v') :: rest, k => if k' == k then some v' else dictFind rest k

/-- Model of Python `list.pop()`: removes and returns the LAST element,
raising `IndexError` on an empty list.  Only the returned element matters to
the scraper, so just that is modelled. -/
def pyPop {α : Type} (l : List α) : Except PyError α :=
  match l.getLast? with
  | some a => .ok a
  | none => .error .indexError

/-- Model of the Python slice `s[0:j]` with a possibly negative bound `j`
(`-1` after a failed `find` is the interesting case): a negative bound counts
from the end, and the result clamps to the string. -/
def pySliceTo (s : String) (j : Int) : String :=
  let len : Int := s.data.length
  let stop : Int := if j < 0 then j + len else j
  String.mk (s.data.take stop.toNat)

/-- Model of the Python slice `s[i:]` with a possibly negative start `i`. -/
def pySliceFrom (s : String) (i : Int) : String :=
  let len : Int := s.data.length
  let start : Int := if i < 0 then i + len else i
  String.mk (s.data.drop start.toNat)

/-- Model of Python `str.strip()`: leading and trailing whitespace characters
removed.  Defined directly over the character list so that it evaluates by
kernel reduction. -/
def pyStrip (s : String) : String :=
  String.mk (((s.data.dropWhile Char.isWhitespace).reverse.dropWhile Char.isWhitespace).reverse)

/-- One `"title"`-classed element of a listing item: its rendered text and the
`href` values of its `.//a` anchor descendants, in document order. -/
structure TitleElement where
  text : String
  anchors : List String
  deriving DecidableEq, Repr

/-- One `span` with a `label` class inside a listing item: its own text
(`label.text`) and the rendered text of its parent element. -/
structure LabelSpan where
  labelText : String
  parentText : String
  deriving DecidableEq, Repr

/-- One listing `<li>` item: the elements `find_class("title")` returns and
the label spans the xpath query returns, each in document order. -/
structure LiElement where
  titles : List TitleElement
  labels : List LabelSpan
  deriving DecidableEq, Repr

/-- Field key derived from a label's text: the exact Python chain
`label.text.replace(":", "").replace(" ", "_").strip().lower()`. -/
def labelKey (t : String) : String :=
  (pyStrip ((t.replace ":" "").replace " " "_")).toLower

/-- Field value derived from the label's parent text: the exact Python chain
`text.split(":", 1).pop().strip()` — the part after the first `:` (the whole
text when there is none), stripped. -/
def labelValue (t : String) : String :=
  pyStrip (match t.splitOn ":" with
    | [] => ""
    | [x] => x
    | _ :: rest => String.intercalate ":" rest)

/-- Embedding of the status augmentation of `parse_case_list_li` (the
`if "status" in case_result` block).  `parseDate` stands for
`dateutil.parser.parse(...).date()`; `none` models a raised parse failure.
The Python guard is `pos0 > 0` on the result of `rfind(" on ")`, so both a
missing occurrence (`-1`) and an occurrence at position 0 skip the block. -/
def augment_status (parseDate : String → Option PyDate) (d : Dict) :
    Except PyError Dict :=
  match dictFind d "status" with
  | some (Value.s st) =>
    match pyRfindSub st.data " on ".data with
    | some p =>
      if 0 < p then
        let d := dictSet d "status_type" (Value.s (pyStrip (pySliceTo st (p : Int))))
        match parseDate (pySliceFrom st ((p : Int) + 4)) with
        | some dt => .ok (dictSet d "status_date" (Value.d dt))
        | none => .error .parseError
      else .ok d
    | none => .ok d
  | some (Value.d _) => .error .attributeError
  | none => .ok d

/-- Embedding of the region augmentation of `parse_case_list_li`: the position
of the first comma of `region_assigned` (Python `-1` when there is none) is
used directly as a slice boundary for `region_number` and, plus one, as the
start of `region_city`. -/
def augment_region (d : Dict) : Except PyError Dict :=
  match dictFind d "region_assigned" with
  | some (Value.s ra) =>
    let pos0 : Int := match pyFindSub ra.data ",".data with
      | some i => (i : Int)
      | none => -1
    let d := dictSet d "region_number" (Value.s (pyStrip (pySliceTo ra pos0)))
    .ok (dictSet d "region_city" (Value.s (pyStrip (pySliceFrom ra (pos0 + 1)))))
  | some (Value.d _) => .error .attributeError
  | none => .ok d

/-- Embedding of `parse_case_list_li(li)`: pop the LAST `"title"`-classed
element (raising `IndexError` when there is none), record its stripped text
as `title` and the `href` of its LAST anchor as `url`, fold every label span
into the dict, then run the status and region augmentations. -/
def parse_case_list_li (parseDate : String → Option PyDate) (li : LiElement) :
    Except PyError Dict :=
  match pyPop li.titles with
  | .error e => .error e
  | .ok title_h3 =>
    let d := dictSet [] "title" (Value.s (pyStrip title_h3.text))
    match pyPop title_h3.anchors with
    | .error e => .error e
    | .ok href =>
      let d := dictSet d "url" (Value.s href)
      let d := li.labels.foldl
        (fun d lab => dictSet d (labelKey lab.labelText) (Value.s (labelValue lab.parentText))) d
      match augment_status parseDate d with
      | .error e => .error e
      | .ok d => augment_region d

/-- Embedding of `parse_case_list(buffer)` after the lxml parse: the selected
`search-result` list items are processed in document order and an exception
from any item aborts the whole page parse. -/
def parse_case_list (parseDate : String → Option PyDate) :
    List LiElement → Except PyError (List Dict)
  | [] => .ok []
  | li :: rest =>
    match parse_case_list_li parseDate li with
    | .error e => .error e
    | .ok c =>
      match parse_case_list parseDate rest with
      | .error e => .error e
      | .ok cs => .ok (c :: cs)

/-- Tabular data as produced by `pandas.read_html(...).pop()`: ordered rows of
cell strings.  Only emptiness and identity matter to the claims. -/
structure DataFrame where
  rows : List (List String)
  deriving DecidableEq, Repr

/-- Empty `pandas.DataFrame()`. -/
def DataFrame.empty : DataFrame := ⟨[]⟩

/-- Detail-page document as `get_case` reads it.  Each `find_class` query is
represented by the list of its results in document order: for the six labelled
fields the entry is the text of the matched span's next-sibling element
(`span.getnext().text`); for the two tables the entry is the outcome of
`pandas.read_html` on the table's markup (`none` models the `ValueError`
raised when no parseable rows exist); for the allegations container the entry
is the list of `li.text` values of its `field-content` elements (`li.text` may
be Python `None`). -/
structure DetailDocument where
  caseLabels : List String
  cityLabels : List String
  dateFiledLabels : List String
  regionLabels : List String
  statusLabels : List String
  closeLabels : List String
  docketTables : List (Option DataFrame)
  allegDivs : List (List (Option String))
  participantTables : List (Option DataFrame)
  deriving DecidableEq, Repr

/-- Fixed-shape record returned by `get_case`. -/
structure CaseDetail where
  case_number : String
  city : String
  date_filed : String
  region : String
  status : String
  close_reason : Option String
  docket : DataFrame
  allegations : List (Option String)
  participants : DataFrame
  deriving DecidableEq, Repr

/-- Embedding of the parsing part of `get_case` (URL building and fetching are
factored out).  Required labels go through `find_class(...).pop()` and so
raise `IndexError` when absent; the close-method pop is wrapped in
`try/except IndexError` yielding `None`; a docket table that
`pandas.read_html` rejects falls back to an empty frame; an absent allegations
container yields an empty list.  In the participants `except ValueError`
branch the Python code rebinds `case_docket_df` instead of `case_party_df`,
and the final `return` then reads the never-assigned `case_party_df`, raising
`UnboundLocalError` (modelled as `nameError`). -/
def get_case (doc : DetailDocument) : Except PyError CaseDetail :=
  match pyPop doc.caseLabels with
  | .error e => .error e
  | .ok case_number =>
  match pyPop doc.cityLabels with
  | .error e => .error e
  | .ok case_city =>
  match pyPop doc.dateFiledLabels with
  | .error e => .error e
  | .ok case_date_filed =>
  match pyPop doc.regionLabels with
  | .error e => .error e
  | .ok case_region =>
  match pyPop doc.statusLabels with
  | .error e => .error e
  | .ok case_status =>
  let case_close : Option String := doc.closeLabels.getLast?
  match pyPop doc.docketTables with
  | .error e => .error e
  | .ok docket_outcome =>
  let case_docket_df := match docket_outcome with
    | some df => df
    | none => DataFrame.empty
  let allegation_list : List (Option String) := match doc.allegDivs.getLast? with
    | some div => div
    | none => []
  match pyPop doc.participantTables with
  | .error e => .error e
  | .ok party_outcome =>
  match party_outcome with
  | some case_party_df =>
      .ok { case_number := case_number, city := case_city, date_filed := case_date_filed,
            region := case_region, status := case_status, close_reason := case_close,
            docket := case_docket_df, allegations := allegation_list,
            participants := case_party_df }
  | none =>
      -- the except branch executes `case_docket_df = pandas.DataFrame()` and the
      -- return statement then reads the unassigned `case_party_df`
      .error .nameError

/-- Embedding of the page loop of `get_case_list`: for each page number in
order, build the page URL, fetch it, parse it, and extend the accumulated
list; any exception aborts the whole loop. -/
def get_case_list_loop (fetch : String → String) (htmlToLis : String → List LiElement)
    (parseDate : String → Option PyDate) (dates : Option (PyDate × PyDate))
    (company : Option String) : List Nat → List Dict → Except PyError (List Dict)
  | [], cases => .ok cases
  | page_number :: rest, cases =>
    let page_url := get_case_list_url dates company (some page_number)
    match parse_case_list parseDate (htmlToLis (fetch page_url)) with
    | .error e => .error e
    | .ok parsed => get_case_list_loop fetch htmlToLis parseDate dates company rest
        (cases ++ parsed)

/-- Embedding of `get_case_list(dates, company)`.  HTTP fetching is the
function `fetch` from URL to response body; the lxml parse plus
`search-result` selection is `htmlToLis`.  The page count is extracted from
the page-0 URL's body, then pages `0, 1, ..., count-1` are fetched, parsed and
accumulated in that order. -/
def get_case_list (fetch : String → String) (htmlToLis : String → List LiElement)
    (parseDate : String → Option PyDate) (dates : Option (PyDate × PyDate))
    (company : Option String) : Except PyError (List Dict) :=
  let initial_url := get_case_list_url dates company (some 0)
  match get_page_count_text (fetch initial_url) with
  | .error e => .error e
  | .ok max_page_count =>
      get_case_list_loop fetch htmlToLis parseDate dates company
        (List.range max_page_count) []

/-- Sample date parser used by the concrete instances below: recognises the
one date string the examples use. -/
def sampleParseDate (t : String) : Option PyDate :=
  if t = "January 5, 2018" then some ⟨2018, 1, 5⟩ else none

theorem scan_digits_stops (ds : List Char) (c : Char) (rest : List Char)
    (hds : ∀ d ∈ ds, d.isDigit = true) (hc : c.isDigit = false) :
    scan_digits (ds ++ c :: rest) = .ok ds.length := by
  induction ds with
  | nil =>
    simp only [List.nil_append, scan_digits, hc, Bool.false_eq_true, if_false, List.length_nil]
  | cons d ds ih =>
    have hd : d.isDigit = true := hds d (List.mem_cons_self d ds)
    have hih := ih (fun x hx => hds x (List.mem_cons_of_mem d hx))
    simp only [List.cons_append, scan_digits, hd, if_true, Except.map, List.append_eq, hih,
      List.length_cons]

theorem scan_digits_runs_out (ds : List Char) (hds : ∀ d ∈ ds, d.isDigit = true) :
    scan_digits ds = .error .indexError := by
  induction ds with
  | nil => rfl
  | cons d ds ih =>
    have hd : d.isDigit = true := hds d (List.mem_cons_self d ds)
    have hih := ih (fun x hx => hds x (List.mem_cons_of_mem d hx))
    simp only [scan_digits, hd, if_true, hih, Except.map]

theorem occurrences_append_ne_nil (a pat : List Char) :
    occurrences (a ++ pat) pat ≠ [] := by
  have hmem : a.length ∈ occurrences (a ++ pat) pat := by
    unfold occurrences
    rw [List.mem_filter]
    refine ⟨?_, ?_⟩
    · rw [List.mem_range, List.length_append]
      omega
    · rw [List.drop_left, List.take_length]
      exact beq_self_eq_true pat
  intro h
  rw [h] at hmem
  exact absurd hmem (List.not_mem_nil _)

theorem strContains_append (pre pat : String) :
    strContains (pre ++ pat) pat = true := by
  unfold strContains
  have h := occurrences_append_ne_nil pre.data pat.data
  have hdata : (pre ++ pat).data = pre.data ++ pat.data := rfl
  rw [hdata]
  cases hocc : occurrences (pre.data ++ pat.data) pat.data with
  | nil => exact absurd hocc h
  | cons x xs => rfl

end NlrbData

/-- Claim C1 fails on the code: for dates = (2017-01-01, 2017-08-24), no
company and no page number, the query portion of the built URL is not the
claimed string with `/` escaped as `%2F`; `strftime` output is spliced in
verbatim, so the slashes stay literal. -/
theorem C1_counterexample :
    NlrbData.queryPortion
        (NlrbData.get_case_list_url (some (⟨2017, 1, 1⟩, ⟨2017, 8, 24⟩)) none none) ≠
      "?&f[0]=date%3A01%2F01%2F2017%20to%2008%2F24%2F2017" := by
  decide

/-- Claim C1, amended: for the URL builder called with dates =
(2017-01-01, 2017-08-24), no company, and no page number, the portion of the
returned URL from the query separator onward is exactly
`?&f[0]=date%3A01/01/2017%20to%2008/24/2017` — `:` is escaped as `%3A` and the
spaces as `%20` by the literal format string, but the `/` characters of the
`%m/%d/%Y` dates are left unescaped. -/
theorem C1_amended_query :
    NlrbData.queryPortion
        (NlrbData.get_case_list_url (some (⟨2017, 1, 1⟩, ⟨2017, 8, 24⟩)) none none) =
      "?&f[0]=date%3A01/01/2017%20to%2008/24/2017" := by
  decide

/-- Claim C5 fails on the code: the builder called with page number 0 returns
a URL with no `page` parameter at all, because the Python guard
`if page_number:` is false for `0`. -/
theorem C5_counterexample :
    NlrbData.get_case_list_url none none (some 0) = "https://www.nlrb.gov/search/cases/?" ∧
    NlrbData.strContains (NlrbData.get_case_list_url none none (some 0)) "&page=" = false := by
  exact ⟨rfl, by decide⟩

/-- Claim C5, amended: for every call to the URL builder with a page number
n ≠ 0, the returned URL contains an appended `&page=<n>` parameter; for
n = 0 the parameter is omitted and the URL equals the one built with no page
number at all. -/
theorem C5_amended_page_param (dates : Option (NlrbData.PyDate × NlrbData.PyDate))
    (company : Option String) (n : Nat) (h : n ≠ 0) :
    NlrbData.strContains (NlrbData.get_case_list_url dates company (some n))
        ("&page=" ++ toString n) = true ∧
    NlrbData.get_case_list_url dates company (some 0) =
      NlrbData.get_case_list_url dates company none := by
  constructor
  · have hne : (n != 0) = true := by simpa using h
    unfold NlrbData.get_case_list_url
    simp only [hne, if_true]
    rw [String.append_assoc]
    exact NlrbData.strContains_append _ _
  · rfl

/-- Witness for C5: at dates = none, company = none, n = 2, the built URL
contains `&page=2` and the page-0 URL equals the no-page URL. -/
theorem C5_witness :
    NlrbData.strContains (NlrbData.get_case_list_url none none (some 2))
        ("&page=" ++ toString 2) = true ∧
    NlrbData.get_case_list_url none none (some 0) =
      NlrbData.get_case_list_url none none none :=
  C5_amended_page_param none none 2 (by decide)

/-- Claim C2 fails on the code: a text whose digits after the last `?page=`
extend to the very end of the string makes the scanning loop read past the end
of the buffer, raising `IndexError`, instead of returning the parsed integer
(here 42). -/
theorem C2_counterexample :
    NlrbData.get_page_count_text "a?page=42" = .error NlrbData.PyError.indexError ∧
    NlrbData.get_page_count_text "a?page=42" ≠ .ok 42 := by
  refine ⟨rfl, fun h => ?_⟩
  rw [show NlrbData.get_page_count_text "a?page=42" = .error NlrbData.PyError.indexError
    from rfl] at h
  exact Except.noConfusion h

/-- Claim C2, amended: the page-count extraction returns 1 when `?page=` does
not occur; when it occurs last at position p and the following maximal digit
run is nonempty and terminated by a non-digit character, it returns the
integer parsed from that run; but when every character after the last
`?page=` is a digit (including the case of no characters at all), the scan
reads past the end of the text and raises `IndexError` instead of returning. -/
theorem C2_amended_page_count (buffer : String) :
    (NlrbData.pyRfindSub buffer.data "?page=".data = none →
      NlrbData.get_page_count_text buffer = .ok 1) ∧
    (∀ (p : Nat) (ds : List Char) (c : Char) (rest : List Char),
      NlrbData.pyRfindSub buffer.data "?page=".data = some p →
      buffer.data.drop (p + 6) = ds ++ c :: rest →
      (∀ d ∈ ds, d.isDigit = true) →
      c.isDigit = false →
      ds ≠ [] →
      NlrbData.get_page_count_text buffer = .ok (NlrbData.digitsToNat ds)) ∧
    (∀ p : Nat,
      NlrbData.pyRfindSub buffer.data "?page=".data = some p →
      (∀ d ∈ buffer.data.drop (p + 6), d.isDigit = true) →
      NlrbData.get_page_count_text buffer = .error NlrbData.PyError.indexError) := by
  refine ⟨fun hnone => ?_, fun p ds c rest hfind hdrop hds hc hne => ?_, fun p hfind hall => ?_⟩
  · unfold NlrbData.get_page_count_text
    dsimp only
    rw [hnone]
  · unfold NlrbData.get_page_count_text
    dsimp only
    rw [hfind]
    dsimp only
    rw [hdrop, NlrbData.scan_digits_stops ds c rest hds hc]
    have hlen : ds.length ≠ 0 := fun h => hne (List.eq_nil_of_length_eq_zero h)
    simp only [hlen, if_false]
    rw [List.take_left]
  · unfold NlrbData.get_page_count_text
    dsimp only
    rw [hfind]
    dsimp only
    rw [NlrbData.scan_digits_runs_out _ hall]

/-- Witness for C2: the amended theorem at the concrete texts
`a?page=7&x=1` (last occurrence followed by the digit `7` then `&`) and
`hello` (no occurrence). -/
theorem C2_witness :
    NlrbData.get_page_count_text "a?page=7&x=1" = .ok 7 ∧
    NlrbData.get_page_count_text "hello" = .ok 1 := by
  constructor
  · have h := ((C2_amended_page_count "a?page=7&x=1").2.1) 1 ['7'] '&' "x=1".data
      (by decide) (by decide) (by decide) (by decide) (by decide)
    rwa [show NlrbData.digitsToNat ['7'] = 7 from by decide] at h
  · exact (C2_amended_page_count "hello").1 (by decide)

namespace NlrbData

theorem dictFind_dictSet_self (d : Dict) (k : String) (v : Value) :
    dictFind (dictSet d k v) k = some v := by
  induction d with
  | nil => simp [dictSet, dictFind]
  | cons kv rest ih =>
    obtain ⟨k', v'⟩ := kv
    by_cases h : k' = k
    · subst h
      simp [dictSet, dictFind]
    · simp [dictSet, dictFind, h, ih]

theorem dictFind_dictSet_ne (d : Dict) (k k' : String) (v : Value) (h : k' ≠ k) :
    dictFind (dictSet d k' v) k = dictFind d k := by
  induction d with
  | nil => simp [dictSet, dictFind, h]
  | cons kv rest ih =>
    obtain ⟨k0, v0⟩ := kv
    by_cases h0 : k0 = k'
    · subst h0
      simp [dictSet, dictFind, h]
    · by_cases hk : k0 = k
      · subst hk
        simp [dictSet, dictFind, h0]
      · simp [dictSet, dictFind, h0, hk, ih]

theorem dictFind_foldl_labels (labels : List LabelSpan) (d : Dict) (k : String)
    (h : ∀ lab ∈ labels, labelKey lab.labelText ≠ k) :
    dictFind (labels.foldl (fun d lab =>
      dictSet d (labelKey lab.labelText) (Value.s (labelValue lab.parentText))) d) k
      = dictFind d k := by
  induction labels generalizing d with
  | nil => rfl
  | cons lab rest ih =>
    rw [List.foldl_cons, ih _ (fun x hx => h x (List.mem_cons_of_mem lab hx)),
      dictFind_dictSet_ne _ _ _ _ (h lab (List.mem_cons_self lab rest))]

theorem pyRfindSub_isSub (cs pat : List Char) (p : Nat)
    (h : pyRfindSub cs pat = some p) : (cs.drop p).take pat.length = pat := by
  unfold pyRfindSub at h
  have hmem : p ∈ occurrences cs pat := List.mem_of_mem_getLast? (by rw [h]; rfl)
  unfold occurrences at hmem
  rw [List.mem_filter] at hmem
  exact eq_of_beq hmem.2

theorem pySliceTo_ofNat (s : String) (p : Nat) :
    pySliceTo s (p : Int) = String.mk (s.data.take p) := by
  unfold pySliceTo
  dsimp only
  rw [if_neg (by omega), Int.toNat_ofNat]

theorem pySliceTo_neg_one (s : String) :
    pySliceTo s (-1) = String.mk s.data.dropLast := by
  unfold pySliceTo
  dsimp only
  rw [if_pos (by omega)]
  have h : ((-1 : Int) + (s.data.length : Int)).toNat = s.data.length - 1 := by omega
  rw [h, ← List.dropLast_eq_take]

theorem pySliceFrom_zero (s : String) : pySliceFrom s 0 = s := rfl

theorem pySliceFrom_add4 (s : String) (p : Nat) :
    pySliceFrom s ((p : Int) + 4) = String.mk (s.data.drop (p + 4)) := by
  unfold pySliceFrom
  dsimp only
  rw [if_neg (by omega)]
  have h : ((p : Int) + 4).toNat = p + 4 := by omega
  rw [h]

theorem dictFind_augment_status (pd : String → Option PyDate) (d d' : Dict) (k : String)
    (hk1 : k ≠ "status_type") (hk2 : k ≠ "status_date")
    (h : augment_status pd d = .ok d') : dictFind d' k = dictFind d k := by
  unfold augment_status at h
  split at h
  · split at h
    · split at h
      · dsimp only at h
        split at h
        · injection h with h
          subst h
          rw [dictFind_dictSet_ne _ _ _ _ (Ne.symm hk2), dictFind_dictSet_ne _ _ _ _ (Ne.symm hk1)]
        · exact Except.noConfusion h
      · injection h with h
        subst h
        rfl
    · injection h with h
      subst h
      rfl
  · exact Except.noConfusion h
  · injection h with h
    subst h
    rfl

theorem dictFind_augment_region (d d' : Dict) (k : String)
    (hk1 : k ≠ "region_number") (hk2 : k ≠ "region_city")
    (h : augment_region d = .ok d') : dictFind d' k = dictFind d k := by
  unfold augment_region at h
  split at h
  · dsimp only at h
    injection h with h
    subst h
    rw [dictFind_dictSet_ne _ _ _ _ (Ne.symm hk2), dictFind_dictSet_ne _ _ _ _ (Ne.symm hk1)]
  · exact Except.noConfusion h
  · injection h with h
    subst h
    rfl

end NlrbData

/-- Claim C10: for every listing item whose captured `region_assigned` value
contains no comma, the region augmentation does not fail: `region_number`
becomes the value with its final character removed and then stripped (the
`find` result `-1` is used directly as a slice bound), and `region_city`
becomes the entire value stripped (slice from `-1 + 1 = 0`). -/
theorem C10_region_no_comma (d : NlrbData.Dict) (ra : String)
    (hfind : NlrbData.dictFind d "region_assigned" = some (NlrbData.Value.s ra))
    (hnc : NlrbData.pyFindSub ra.data ",".data = none) :
    ∃ d', NlrbData.augment_region d = .ok d' ∧
      NlrbData.dictFind d' "region_number"
        = some (NlrbData.Value.s (NlrbData.pyStrip (String.mk ra.data.dropLast))) ∧
      NlrbData.dictFind d' "region_city"
        = some (NlrbData.Value.s (NlrbData.pyStrip ra)) := by
  have heq : NlrbData.augment_region d =
      .ok (NlrbData.dictSet
            (NlrbData.dictSet d "region_number"
              (NlrbData.Value.s (NlrbData.pyStrip (NlrbData.pySliceTo ra (-1)))))
            "region_city"
            (NlrbData.Value.s (NlrbData.pyStrip (NlrbData.pySliceFrom ra (-1 + 1))))) := by
    unfold NlrbData.augment_region
    rw [hfind]
    dsimp only
    rw [hnc]
  refine ⟨_, heq, ?_, ?_⟩
  · rw [NlrbData.dictFind_dictSet_ne _ _ _ _ (by decide), NlrbData.dictFind_dictSet_self,
      NlrbData.pySliceTo_neg_one]
  · rw [NlrbData.dictFind_dictSet_self]
    have h0 : (-1 : Int) + 1 = 0 := by norm_num
    rw [h0, NlrbData.pySliceFrom_zero]

/-- Witness for C10: the region augmentation on the concrete captured value
`Region 5` (no comma) succeeds, with `region_number = "Region"` (final
character sliced off, then stripped) and `region_city = "Region 5"`. -/
theorem C10_witness :
    ∃ d', NlrbData.augment_region [("region_assigned", NlrbData.Value.s "Region 5")] = .ok d' ∧
      NlrbData.dictFind d' "region_number"
        = some (NlrbData.Value.s (NlrbData.pyStrip (String.mk ("Region 5" : String).data.dropLast))) ∧
      NlrbData.dictFind d' "region_city"
        = some (NlrbData.Value.s (NlrbData.pyStrip "Region 5")) :=
  C10_region_no_comma [("region_assigned", NlrbData.Value.s "Region 5")] "Region 5"
    (by decide) (by decide)

/-- Claim C4: for every listing item whose captured `status` value contains
`" on "` — captured values are whitespace-stripped, so they cannot start with
a space and the last occurrence therefore sits at a positive offset, passing
the Python `pos0 > 0` guard — the status augmentation sets `status_type` to
the stripped text before the last occurrence and `status_date` to the
calendar date parsed from the text after it; when `" on "` does not occur the
dict is returned unchanged, so no `status_type`/`status_date` key is added. -/
theorem C4_status_augment (parseDate : String → Option NlrbData.PyDate)
    (d : NlrbData.Dict) (st : String)
    (hfind : NlrbData.dictFind d "status" = some (NlrbData.Value.s st))
    (hhead : st.data.head? ≠ some ' ') :
    (∀ (p : Nat) (dt : NlrbData.PyDate),
      NlrbData.pyRfindSub st.data " on ".data = some p →
      parseDate (String.mk (st.data.drop (p + 4))) = some dt →
      ∃ d', NlrbData.augment_status parseDate d = .ok d' ∧
        NlrbData.dictFind d' "status_type"
          = some (NlrbData.Value.s (NlrbData.pyStrip (String.mk (st.data.take p)))) ∧
        NlrbData.dictFind d' "status_date" = some (NlrbData.Value.d dt)) ∧
    (NlrbData.pyRfindSub st.data " on ".data = none →
      NlrbData.augment_status parseDate d = .ok d) := by
  constructor
  · intro p dt hrf hpd
    have hp : 0 < p := by
      rcases Nat.eq_zero_or_pos p with h0 | hpos
      · exfalso
        subst h0
        have hsub := NlrbData.pyRfindSub_isSub st.data " on ".data 0 hrf
        rw [List.drop_zero] at hsub
        have hlen : (" on " : String).data.length = 4 := rfl
        rw [hlen] at hsub
        cases hd : st.data with
        | nil =>
          rw [hd] at hsub
          exact absurd hsub (by decide)
        | cons c cs' =>
          rw [hd] at hsub
          have hred : List.take 4 (c :: cs') = c :: List.take 3 cs' := rfl
          have hpat : (" on " : String).data = ' ' :: ['o', 'n', ' '] := rfl
          rw [hred, hpat] at hsub
          injection hsub with h1 h2
          exact hhead (by rw [hd, h1]; rfl)
      · exact hpos
    have hpd' : parseDate (NlrbData.pySliceFrom st ((p : Int) + 4)) = some dt := by
      rw [NlrbData.pySliceFrom_add4]
      exact hpd
    have heq : NlrbData.augment_status parseDate d =
        .ok (NlrbData.dictSet
              (NlrbData.dictSet d "status_type"
                (NlrbData.Value.s (NlrbData.pyStrip (NlrbData.pySliceTo st (p : Int)))))
              "status_date" (NlrbData.Value.d dt)) := by
      unfold NlrbData.augment_status
      rw [hfind]
      dsimp only
      rw [hrf]
      dsimp only
      rw [if_pos hp]
      rw [hpd']
    refine ⟨_, heq, ?_, ?_⟩
    · rw [NlrbData.dictFind_dictSet_ne _ _ _ _ (by decide), NlrbData.dictFind_dictSet_self,
        NlrbData.pySliceTo_ofNat]
    · rw [NlrbData.dictFind_dictSet_self]
  · intro hrf
    unfold NlrbData.augment_status
    rw [hfind]
    dsimp only
    rw [hrf]

/-- Witness for C4: at the captured status `Closed on January 5, 2018` (last
`" on "` at offset 6), the augmentation sets `status_type` from the stripped
prefix `Closed` and `status_date` to the parsed date 2018-01-05; the no-`" on "`
part is witnessed at the captured status `Open`. -/
theorem C4_witness :
    (∃ d', NlrbData.augment_status NlrbData.sampleParseDate
        [("status", NlrbData.Value.s "Closed on January 5, 2018")] = .ok d' ∧
      NlrbData.dictFind d' "status_type"
        = some (NlrbData.Value.s (NlrbData.pyStrip
            (String.mk (("Closed on January 5, 2018" : String).data.take 6)))) ∧
      NlrbData.dictFind d' "status_date" = some (NlrbData.Value.d ⟨2018, 1, 5⟩)) ∧
    NlrbData.augment_status NlrbData.sampleParseDate [("status", NlrbData.Value.s "Open")]
      = .ok [("status", NlrbData.Value.s "Open")] :=
  ⟨(C4_status_augment NlrbData.sampleParseDate
      [("status", NlrbData.Value.s "Closed on January 5, 2018")]
      "Closed on January 5, 2018" (by decide) (by decide)).1 6 ⟨2018, 1, 5⟩
      (by decide) (by decide),
   (C4_status_augment NlrbData.sampleParseDate [("status", NlrbData.Value.s "Open")]
      "Open" (by decide) (by decide)).2 (by decide)⟩

/-- Claim C6 fails on the code: for an item with two `"title"`-classed
elements (texts `A` then `B`, anchors `ua` then `ub`), the parser's
`find_class("title").pop()` takes the LAST element, so the summary carries
title `B` and url `ub`, not the first element's `A`/`ua`. -/
theorem C6_counterexample :
    NlrbData.parse_case_list_li NlrbData.sampleParseDate
        ⟨[⟨"A", ["ua"]⟩, ⟨"B", ["ub"]⟩], []⟩ =
      .ok [("title", NlrbData.Value.s "B"), ("url", NlrbData.Value.s "ub")] ∧
    ("B" : String) ≠ "A" ∧ ("ub" : String) ≠ "ua" := by
  exact ⟨rfl, by decide, by decide⟩

/-- Claim C6, amended: for every listing item with at least one
`"title"`-classed element, the parsed summary's `title` is the stripped text
of the LAST such element and its `url` the `href` of that element's LAST
anchor (`list.pop()` removes from the end); when exactly one title element
with one anchor is present this coincides with the first.  Stated for items
whose label spans do not themselves produce a `title` or `url` key, since a
later label assignment would overwrite the field. -/
theorem C6_amended_title_url (parseDate : String → Option NlrbData.PyDate)
    (li : NlrbData.LiElement) (t : NlrbData.TitleElement) (a : String) (d : NlrbData.Dict)
    (ht : li.titles.getLast? = some t)
    (ha : t.anchors.getLast? = some a)
    (hlab : ∀ lab ∈ li.labels,
      NlrbData.labelKey lab.labelText ≠ "title" ∧ NlrbData.labelKey lab.labelText ≠ "url")
    (hok : NlrbData.parse_case_list_li parseDate li = .ok d) :
    NlrbData.dictFind d "title" = some (NlrbData.Value.s (NlrbData.pyStrip t.text)) ∧
    NlrbData.dictFind d "url" = some (NlrbData.Value.s a) := by
  unfold NlrbData.parse_case_list_li at hok
  rw [show NlrbData.pyPop li.titles = .ok t from by unfold NlrbData.pyPop; rw [ht]] at hok
  dsimp only at hok
  rw [show NlrbData.pyPop t.anchors = .ok a from by unfold NlrbData.pyPop; rw [ha]] at hok
  dsimp only at hok
  split at hok
  next e heq => exact Except.noConfusion hok
  next dmid heq =>
    constructor
    · rw [NlrbData.dictFind_augment_region dmid d "title" (by decide) (by decide) hok,
        NlrbData.dictFind_augment_status parseDate _ dmid "title" (by decide) (by decide) heq,
        NlrbData.dictFind_foldl_labels _ _ _ (fun lab hl => (hlab lab hl).1),
        NlrbData.dictFind_dictSet_ne _ _ _ _ (by decide), NlrbData.dictFind_dictSet_self]
    · rw [NlrbData.dictFind_augment_region dmid d "url" (by decide) (by decide) hok,
        NlrbData.dictFind_augment_status parseDate _ dmid "url" (by decide) (by decide) heq,
        NlrbData.dictFind_foldl_labels _ _ _ (fun lab hl => (hlab lab hl).2),
        NlrbData.dictFind_dictSet_self]

/-- Witness for C6: the amended theorem at the concrete two-title item of the
counterexample, whose parse yields title `B` and url `ub`. -/
theorem C6_witness :
    NlrbData.dictFind [("title", NlrbData.Value.s "B"), ("url", NlrbData.Value.s "ub")] "title"
      = some (NlrbData.Value.s (NlrbData.pyStrip "B")) ∧
    NlrbData.dictFind [("title", NlrbData.Value.s "B"), ("url", NlrbData.Value.s "ub")] "url"
      = some (NlrbData.Value.s "ub") :=
  C6_amended_title_url NlrbData.sampleParseDate ⟨[⟨"A", ["ua"]⟩, ⟨"B", ["ub"]⟩], []⟩
    ⟨"B", ["ub"]⟩ "ub" [("title", NlrbData.Value.s "B"), ("url", NlrbData.Value.s "ub")]
    (by decide) (by decide) (by simp) rfl

theorem parse_case_list_ok_mem (pd : String → Option NlrbData.PyDate)
    (lis : List NlrbData.LiElement) (res : List NlrbData.Dict)
    (h : NlrbData.parse_case_list pd lis = .ok res) :
    ∀ li ∈ lis, ∃ c, NlrbData.parse_case_list_li pd li = .ok c := by
  induction lis generalizing res with
  | nil =>
    intro li hli
    exact absurd hli (List.not_mem_nil li)
  | cons l0 rest ih =>
    intro li hli
    unfold NlrbData.parse_case_list at h
    split at h
    · exact Except.noConfusion h
    next c hc =>
      split at h
      · exact Except.noConfusion h
      next cs hcs =>
        rcases List.mem_cons.mp hli with h0 | hr
        · subst h0
          exact ⟨c, hc⟩
        · exact ih cs hcs li hr

/-- Claim C8: a listing item with no `"title"`-classed descendant makes
`find_class("title").pop()` raise `IndexError`, so parsing the item fails
rather than skipping it, and parsing any listing page containing such an item
aborts with an error. -/
theorem C8_missing_title (pd : String → Option NlrbData.PyDate)
    (li : NlrbData.LiElement) (lis : List NlrbData.LiElement)
    (hti : li.titles = []) (hmem : li ∈ lis) :
    NlrbData.parse_case_list_li pd li = .error NlrbData.PyError.indexError ∧
    ∃ e, NlrbData.parse_case_list pd lis = .error e := by
  have hfail : NlrbData.parse_case_list_li pd li = .error NlrbData.PyError.indexError := by
    unfold NlrbData.parse_case_list_li
    rw [show NlrbData.pyPop li.titles = .error NlrbData.PyError.indexError from by
      unfold NlrbData.pyPop
      rw [hti]
      rfl]
  refine ⟨hfail, ?_⟩
  cases hres : NlrbData.parse_case_list pd lis with
  | ok res =>
    rcases parse_case_list_ok_mem pd lis res hres li hmem with ⟨c, hc⟩
    rw [hfail] at hc
    exact Except.noConfusion hc
  | error e => exact ⟨e, rfl⟩

/-- Witness for C8: the empty-titles item fails with `IndexError`, and the
one-item page containing it fails as a whole. -/
theorem C8_witness :
    NlrbData.parse_case_list_li NlrbData.sampleParseDate ⟨[], []⟩
      = .error NlrbData.PyError.indexError ∧
    ∃ e, NlrbData.parse_case_list NlrbData.sampleParseDate [⟨[], []⟩] = .error e :=
  C8_missing_title NlrbData.sampleParseDate ⟨[], []⟩ [⟨[], []⟩] rfl (by decide)

theorem get_case_list_loop_ok (fetch : String → String)
    (htmlToLis : String → List NlrbData.LiElement) (pd : String → Option NlrbData.PyDate)
    (dates : Option (NlrbData.PyDate × NlrbData.PyDate)) (company : Option String)
    (L : Nat → List NlrbData.Dict) :
    ∀ (ps : List Nat) (acc : List NlrbData.Dict),
      (∀ p ∈ ps, NlrbData.parse_case_list pd
        (htmlToLis (fetch (NlrbData.get_case_list_url dates company (some p)))) = .ok (L p)) →
      NlrbData.get_case_list_loop fetch htmlToLis pd dates company ps acc
        = .ok (acc ++ (ps.map L).flatten) := by
  intro ps
  induction ps with
  | nil =>
    intro acc h
    simp [NlrbData.get_case_list_loop]
  | cons p rest ih =>
    intro acc h
    unfold NlrbData.get_case_list_loop
    dsimp only
    rw [h p (List.mem_cons_self p rest)]
    dsimp only
    rw [ih _ (fun q hq => h q (List.mem_cons_of_mem p hq)),
      List.map_cons, List.flatten_cons, ← List.append_assoc]

/-- Claim C7: when the page-count extraction over the page-0 body yields n,
the orchestrator parses exactly the pages 0, 1, ..., n-1, in strictly
ascending order, and returns the concatenation of the per-page summary lists
in page order, whose length is the sum of the per-page item counts. -/
theorem C7_orchestrator (fetch : String → String)
    (htmlToLis : String → List NlrbData.LiElement) (pd : String → Option NlrbData.PyDate)
    (dates : Option (NlrbData.PyDate × NlrbData.PyDate)) (company : Option String)
    (n : Nat) (L : Nat → List NlrbData.Dict)
    (hcount : NlrbData.get_page_count_text
      (fetch (NlrbData.get_case_list_url dates company (some 0))) = .ok n)
    (hparse : ∀ p, p < n → NlrbData.parse_case_list pd
      (htmlToLis (fetch (NlrbData.get_case_list_url dates company (some p)))) = .ok (L p)) :
    NlrbData.get_case_list fetch htmlToLis pd dates company
      = .ok (((List.range n).map L).flatten) ∧
    (((List.range n).map L).flatten).length
      = ((List.range n).map (fun p => (L p).length)).sum ∧
    List.Sorted (· < ·) (List.range n) := by
  refine ⟨?_, ?_, List.sorted_lt_range n⟩
  · unfold NlrbData.get_case_list
    dsimp only
    rw [hcount]
    dsimp only
    rw [get_case_list_loop_ok fetch htmlToLis pd dates company L (List.range n) []
      (fun p hp => hparse p (List.mem_range.mp hp)), List.nil_append]
  · rw [List.length_flatten, List.map_map]
    rfl

/-- Witness for C7: a fetch returning an empty body (so the page count is 1)
and a parse yielding no items give a one-page run accumulating the empty
list. -/
theorem C7_witness :
    NlrbData.get_case_list (fun _ => "") (fun _ => []) NlrbData.sampleParseDate none none
      = .ok (((List.range 1).map (fun _ => ([] : List NlrbData.Dict))).flatten) ∧
    (((List.range 1).map (fun _ => ([] : List NlrbData.Dict))).flatten).length
      = ((List.range 1).map
          (fun p => (((fun _ => ([] : List NlrbData.Dict)) p)).length)).sum ∧
    List.Sorted (· < ·) (List.range 1) :=
  C7_orchestrator (fun _ => "") (fun _ => []) NlrbData.sampleParseDate none none 1
    (fun _ => []) rfl (fun _ _ => rfl)

theorem get_case_ok_shape (doc : NlrbData.DetailDocument)
    (cn ci dfl rg st : String) (dt : Option NlrbData.DataFrame) (pdf : NlrbData.DataFrame)
    (h1 : doc.caseLabels.getLast? = some cn)
    (h2 : doc.cityLabels.getLast? = some ci)
    (h3 : doc.dateFiledLabels.getLast? = some dfl)
    (h4 : doc.regionLabels.getLast? = some rg)
    (h5 : doc.statusLabels.getLast? = some st)
    (h6 : doc.docketTables.getLast? = some dt)
    (h7 : doc.participantTables.getLast? = some (some pdf)) :
    ∃ ddf : NlrbData.DataFrame, NlrbData.get_case doc = .ok
      { case_number := cn, city := ci, date_filed := dfl, region := rg, status := st,
        close_reason := doc.closeLabels.getLast?,
        docket := ddf,
        allegations := (match doc.allegDivs.getLast? with | some div => div | none => []),
        participants := pdf } := by
  unfold NlrbData.get_case
  rw [show NlrbData.pyPop doc.caseLabels = .ok cn from by unfold NlrbData.pyPop; rw [h1]]
  dsimp only
  rw [show NlrbData.pyPop doc.cityLabels = .ok ci from by unfold NlrbData.pyPop; rw [h2]]
  dsimp only
  rw [show NlrbData.pyPop doc.dateFiledLabels = .ok dfl from by unfold NlrbData.pyPop; rw [h3]]
  dsimp only
  rw [show NlrbData.pyPop doc.regionLabels = .ok rg from by unfold NlrbData.pyPop; rw [h4]]
  dsimp only
  rw [show NlrbData.pyPop doc.statusLabels = .ok st from by unfold NlrbData.pyPop; rw [h5]]
  dsimp only
  rw [show NlrbData.pyPop doc.docketTables = .ok dt from by unfold NlrbData.pyPop; rw [h6]]
  dsimp only
  rw [show NlrbData.pyPop doc.participantTables = .ok (some pdf) from by
    unfold NlrbData.pyPop; rw [h7]]
  dsimp only
  exact ⟨_, rfl⟩

/-- Claim C9: on every detail page whose required labelled fields are present,
the two optional elements behave independently — when the close-method label
is absent the parse returns a record with `close_reason = none` (the
`IndexError` of the empty pop is caught) without raising, whatever the
allegations container holds; and when the allegations container is absent the
parse returns a record with an empty allegations list without raising,
whatever the close-method query holds. -/
theorem C9_optional_fields (doc : NlrbData.DetailDocument)
    (cn ci dfl rg st : String) (dt : Option NlrbData.DataFrame) (pdf : NlrbData.DataFrame)
    (h1 : doc.caseLabels.getLast? = some cn)
    (h2 : doc.cityLabels.getLast? = some ci)
    (h3 : doc.dateFiledLabels.getLast? = some dfl)
    (h4 : doc.regionLabels.getLast? = some rg)
    (h5 : doc.statusLabels.getLast? = some st)
    (h6 : doc.docketTables.getLast? = some dt)
    (h7 : doc.participantTables.getLast? = some (some pdf)) :
    (doc.closeLabels = [] →
      ∃ d, NlrbData.get_case doc = .ok d ∧ d.close_reason = none) ∧
    (doc.allegDivs = [] →
      ∃ d, NlrbData.get_case doc = .ok d ∧ d.allegations = []) := by
  obtain ⟨ddf, hshape⟩ := get_case_ok_shape doc cn ci dfl rg st dt pdf h1 h2 h3 h4 h5 h6 h7
  constructor
  · intro hclose
    refine ⟨_, hshape, ?_⟩
    show doc.closeLabels.getLast? = none
    rw [hclose]
    rfl
  · intro halleg
    refine ⟨_, hshape, ?_⟩
    show (match doc.allegDivs.getLast? with | some div => div | none => []) = []
    rw [halleg]
    rfl

/-- Witness for C9: the close-method half at a concrete document with no
close-method element but a nonempty allegations container, and the
allegations half at a concrete document with a close-method element but no
allegations container. -/
theorem C9_witness :
    (∃ d, NlrbData.get_case
        { caseLabels := ["01-CA-100000"], cityLabels := ["Boston"],
          dateFiledLabels := ["01/05/2018"], regionLabels := ["Region 1"],
          statusLabels := ["Open"], closeLabels := [],
          docketTables := [some ⟨[["entry"]]⟩], allegDivs := [[some "8(a)(1)"]],
          participantTables := [some ⟨[["party"]]⟩] } = .ok d ∧
      d.close_reason = none) ∧
    (∃ d, NlrbData.get_case
        { caseLabels := ["01-CA-200000"], cityLabels := ["Chicago"],
          dateFiledLabels := ["02/06/2018"], regionLabels := ["Region 13"],
          statusLabels := ["Closed"], closeLabels := ["Withdrawal"],
          docketTables := [some ⟨[["entry"]]⟩], allegDivs := [],
          participantTables := [some ⟨[["party"]]⟩] } = .ok d ∧
      d.allegations = []) :=
  ⟨(C9_optional_fields
      { caseLabels := ["01-CA-100000"], cityLabels := ["Boston"],
        dateFiledLabels := ["01/05/2018"], regionLabels := ["Region 1"],
        statusLabels := ["Open"], closeLabels := [],
        docketTables := [some ⟨[["entry"]]⟩], allegDivs := [[some "8(a)(1)"]],
        participantTables := [some ⟨[["party"]]⟩] }
      "01-CA-100000" "Boston" "01/05/2018" "Region 1" "Open"
      (some ⟨[["entry"]]⟩) ⟨[["party"]]⟩ rfl rfl rfl rfl rfl rfl rfl).1 rfl,
   (C9_optional_fields
      { caseLabels := ["01-CA-200000"], cityLabels := ["Chicago"],
        dateFiledLabels := ["02/06/2018"], regionLabels := ["Region 13"],
        statusLabels := ["Closed"], closeLabels := ["Withdrawal"],
        docketTables := [some ⟨[["entry"]]⟩], allegDivs := [],
        participantTables := [some ⟨[["party"]]⟩] }
      "01-CA-200000" "Chicago" "02/06/2018" "Region 13" "Closed"
      (some ⟨[["entry"]]⟩) ⟨[["party"]]⟩ rfl rfl rfl rfl rfl rfl rfl).2 rfl⟩

/-- Claim C3 names intended behavior the code does not have: on a detail page
whose participants table has no parseable rows (`pandas.read_html` raises
`ValueError`), the `except` branch rebinds the docket variable instead of the
participants one, and the `return` then reads the never-assigned
`case_party_df`, so `get_case` raises `UnboundLocalError` instead of
returning a record with an empty participants table and the docket intact. -/
theorem C3_participants_bug_eval :
    NlrbData.get_case
        { caseLabels := ["01-CA-100000"], cityLabels := ["Boston"],
          dateFiledLabels := ["01/05/2018"], regionLabels := ["Region 1"],
          statusLabels := ["Open"], closeLabels := ["Withdrawal"],
          docketTables := [some ⟨[["entry"]]⟩], allegDivs := [[some "8(a)(1)"]],
          participantTables := [none] } = .error NlrbData.PyError.nameError := rfl
